import Mathlib

/-!
Verification development for the student-to-university assignment pipeline
(`pythonCode.py`, the strict variant, and `seminararbeit.py`, the best-effort
variant).  The tabular data loaded from the spreadsheets is embedded as lists
of records; a pandas cell that may be missing (NaN) is embedded as an
`Option`, with `none` standing for NaN, and NaN-propagation through arithmetic
is `Option.map`.  Excel floats are embedded as exact rationals.
-/

namespace Seminar

/-- One row of the `studierende.xlsx` table, after loading.  `note` (grade)
may be a missing cell; `sprache` may be missing or an arbitrary string. -/
structure Student where
  matrikelnummer : Nat
  note : Option ℚ
  motivation : ℚ
  sprache : Option String
  lebenslauf : ℚ
  formalien : ℚ
  level : String
  ects : ℤ
  besondereChanceBehinderung : Bool
  besondereChanceKind : Bool
  programm : Nat
  semesterwahl : String
  praeferenzen : List String
deriving DecidableEq

/-- One row of the `unis.xlsx` table.  `offersProgram p` is the value of the
column `Programm-XX` for program code `p` (meaningful only for codes in the
table's `programmColumns`). -/
structure Uni where
  arbeitsnameUni : String
  status : String
  maxBachelor : Nat
  maxMaster : Nat
  maxBeide : Nat
  gleicheAufteilungWISESOSE : Bool
  offersProgram : Nat → Bool

/-- The loaded tables: student rows, university rows, and the set of program
codes `p` for which a column `Programm-XX` exists in the unis table. -/
structure Instance where
  students : List Student
  unis : List Uni
  programmColumns : List Nat

/-- A valuation of the binary decision variables `model.x`, indexed by
Matrikelnummer and ArbeitsnameUni. -/
abbrev Assignment : Type := Nat → String → Bool

/-! ## Scoring (identical in both source files) -/

/-- Embeds `normalize_note`: `(5.0 - note) / 4.0`. -/
def normalize_note (note : ℚ) : ℚ := (5 - note) / 4

/-- Embeds `normalize_motivation`: `(3 - motivation) / 2.0`. -/
def normalize_motivation (motivation : ℚ) : ℚ := (3 - motivation) / 2

/-- Embeds `normalize_sprache`: `mapping.get(sprache, 0.0)` over
`{C2: 1.0, C1: 0.8, B2: 0.6, B1: 0.4, A2: 0.2, A1: 0.0}`; a missing cell
(`none`) or an unrecognized string falls through to the default `0.0`. -/
def normalize_sprache (sprache : Option String) : ℚ :=
  if sprache = some "C2" then 1
  else if sprache = some "C1" then 0.8
  else if sprache = some "B2" then 0.6
  else if sprache = some "B1" then 0.4
  else if sprache = some "A2" then 0.2
  else if sprache = some "A1" then 0
  else 0

/-- Embeds `normalize_lebenslauf`: `(3 - lebenslauf) / 2.0`. -/
def normalize_lebenslauf (lebenslauf : ℚ) : ℚ := (3 - lebenslauf) / 2

/-- Embeds `normalize_formalien`: `(3 - formalien) / 2.0`. -/
def normalize_formalien (formalien : ℚ) : ℚ := (3 - formalien) / 2

/-- Embeds `calculate_score` with the fixed `weights` dict
`{Note: 0.6, Motivation: 0.2, Sprache: 0.1, Lebenslauf: 0.05,
Formalien: 0.05}`.  A missing grade cell is NaN; `(5.0 - NaN)/4.0` and the
subsequent weighted sum stay NaN, hence the `Option.map`. -/
def calculate_score (r : Student) : Option ℚ :=
  r.note.map (fun n =>
    0.6 * normalize_note n
    + 0.2 * normalize_motivation r.motivation
    + 0.1 * normalize_sprache r.sprache
    + 0.05 * normalize_lebenslauf r.lebenslauf
    + 0.05 * normalize_formalien r.formalien)

/-- Embeds the `Besondere Chancen` bonus: `+ 0.6` on rows where either
special-circumstance flag is True. -/
def scoreMitBonus (r : Student) : Option ℚ :=
  (calculate_score r).map (fun sc =>
    if r.besondereChanceBehinderung = true ∨ r.besondereChanceKind = true
    then sc + 0.6 else sc)

/-- Embeds the malus `- 0.2` on rows with `Level == 'Bachelor'` and
`ECTS < 60`, applied after the bonus: the final `Score` column. -/
def scoreFinal (r : Student) : Option ℚ :=
  (scoreMitBonus r).map (fun sc =>
    if r.level = "Bachelor" ∧ r.ects < 60 then sc - 0.2 else sc)

/-- The dict `pref_weights = {1: 1.0, 2: 0.9, 3: 0.8, 4: 0.7, 5: 0.6}`. -/
def prefWeightsDict (p : Nat) : Option ℚ :=
  if p = 1 then some 1
  else if p = 2 then some 0.9
  else if p = 3 then some 0.8
  else if p = 4 then some 0.7
  else if p = 5 then some 0.6
  else none

/-- Embeds the column `Score_Pref{p}`:
`students['Score'] / pref_weights.get(pref, 1.0) * pref_weights[pref]`.
The loop only runs `pref in range(1, 6)`, where the key is present, so both
the defaulted lookup and the plain indexing denote `(prefWeightsDict p).getD 1`. -/
def scorePrefColumn (p : Nat) (r : Student) : Option ℚ :=
  (scoreFinal r).map (fun sc =>
    sc / (prefWeightsDict p).getD 1 * (prefWeightsDict p).getD 1)

/-! ## Model building -/

/-- Embeds line `unis = unis[unis['Status'] != 'Pausiert']`: the university
rows that survive the status filter and populate `model.unis`. -/
def activeUnis (inst : Instance) : List Uni :=
  inst.unis.filter (fun u => u.status != "Pausiert")

/-- The `student_ids` list feeding `model.students`. -/
def studentIds (inst : Instance) : List Nat :=
  inst.students.map (fun r => r.matrikelnummer)

/-- The `uni_ids` list feeding `model.unis` (taken after the status filter). -/
def uniIds (inst : Instance) : List String :=
  (activeUnis inst).map (fun u => u.arbeitsnameUni)

/-- Embeds `model.x = Var(model.students, model.unis, domain=Binary)`: the
index set over which binary decision variables are declared — the full
product of student ids with (active) university ids. -/
def varDomain (inst : Instance) : List (Nat × String) :=
  (studentIds inst).flatMap (fun s => (uniIds inst).map (fun u => (s, u)))

/-- Number of universities a student is assigned to by `x`: the value of
`sum(m.x[s, u] for u in m.unis)` for binary `x`. -/
def assignedCount (inst : Instance) (x : Assignment) (r : Student) : Nat :=
  ((activeUnis inst).filter (fun u => x r.matrikelnummer u.arbeitsnameUni)).length

/-- Embeds `one_uni_per_student_rule` of `pythonCode.py` (strict variant):
`sum(m.x[s, u] for u in m.unis) == 1` for every student. -/
def one_uni_per_student_strict (inst : Instance) (x : Assignment) : Bool :=
  inst.students.all (fun r => assignedCount inst x r == 1)

/-- Embeds `one_uni_per_student_rule` of `seminararbeit.py` (best-effort
variant): `sum(m.x[student, university] for university in m.unis) <= 1`. -/
def one_uni_per_student_bestEffort (inst : Instance) (x : Assignment) : Bool :=
  inst.students.all (fun r => assignedCount inst x r ≤ 1)

/-- Number of assigned Bachelor-level students at university `u`: the value
of the sum in `bachelor_capacity_rule`. -/
def bachelorCount (inst : Instance) (x : Assignment) (u : Uni) : Nat :=
  (inst.students.filter (fun r =>
    r.level == "Bachelor" && x r.matrikelnummer u.arbeitsnameUni)).length

/-- Number of assigned Master-level students at university `u`. -/
def masterCount (inst : Instance) (x : Assignment) (u : Uni) : Nat :=
  (inst.students.filter (fun r =>
    r.level == "Master" && x r.matrikelnummer u.arbeitsnameUni)).length

/-- Total number of assigned students at university `u`. -/
def totalCount (inst : Instance) (x : Assignment) (u : Uni) : Nat :=
  (inst.students.filter (fun r => x r.matrikelnummer u.arbeitsnameUni)).length

/-- Embeds `bachelor_capacity_rule` (active in `pythonCode.py` only):
per active university, the Bachelor sum is `<= MaxBachelor`. -/
def bachelor_capacity (inst : Instance) (x : Assignment) : Bool :=
  (activeUnis inst).all (fun u => bachelorCount inst x u ≤ u.maxBachelor)

/-- Embeds `master_capacity_rule`: per active university, the Master sum is
`<= MaxMaster`. -/
def master_capacity (inst : Instance) (x : Assignment) : Bool :=
  (activeUnis inst).all (fun u => masterCount inst x u ≤ u.maxMaster)

/-- Embeds `both_capacity_rule`: per active university, the total sum is
`<= MaxBeide`. -/
def both_capacity (inst : Instance) (x : Assignment) : Bool :=
  (activeUnis inst).all (fun u => totalCount inst x u ≤ u.maxBeide)

/-- Number of assigned students with `Semesterwahl == 'WiSe'` at `u`. -/
def wiseCount (inst : Instance) (x : Assignment) (u : Uni) : Nat :=
  (inst.students.filter (fun r =>
    r.semesterwahl == "WiSe" && x r.matrikelnummer u.arbeitsnameUni)).length

/-- Number of assigned students with `Semesterwahl == 'SoSe'` at `u`. -/
def soseCount (inst : Instance) (x : Assignment) (u : Uni) : Nat :=
  (inst.students.filter (fun r =>
    r.semesterwahl == "SoSe" && x r.matrikelnummer u.arbeitsnameUni)).length

/-- Embeds `gleiche_aufteilung_rule` (active in `pythonCode.py` only): for a
flagged university, `inequality(-1, wise - sose, 1)`; otherwise
`Constraint.Feasible`. -/
def gleiche_aufteilung (inst : Instance) (x : Assignment) : Bool :=
  (activeUnis inst).all (fun u =>
    !u.gleicheAufteilungWISESOSE
    || decide (-1 ≤ (wiseCount inst x u : ℤ) - soseCount inst x u
        ∧ (wiseCount inst x u : ℤ) - soseCount inst x u ≤ 1))

/-- Embeds `programm_match_rule` (active in `pythonCode.py` only): if the
column `Programm-XX` for the student's program is absent the variable is
forced to 0; otherwise `m.x[s, u] <= int(offers_program)`, i.e. an assigned
pair must have a truthy offering flag. -/
def programm_match (inst : Instance) (x : Assignment) : Bool :=
  inst.students.all (fun r => (activeUnis inst).all (fun u =>
    if inst.programmColumns.contains r.programm
    then !(x r.matrikelnummer u.arbeitsnameUni) || u.offersProgram r.programm
    else !(x r.matrikelnummer u.arbeitsnameUni)))

/-- A feasible solution of the strict variant (`pythonCode.py`): all of its
constraints hold. -/
def pythonCodeFeasible (inst : Instance) (x : Assignment) : Bool :=
  one_uni_per_student_strict inst x
  && bachelor_capacity inst x
  && master_capacity inst x
  && both_capacity inst x
  && gleiche_aufteilung inst x
  && programm_match inst x

/-- A feasible solution of the best-effort variant (`seminararbeit.py`): only
the `<= 1` per-student constraint is active; the capacity, balance and
program-match rules are commented out in that file. -/
def seminararbeitFeasible (inst : Instance) (x : Assignment) : Bool :=
  one_uni_per_student_bestEffort inst x

/-! ## Objective and extraction -/

/-- The rational value of a binary decision variable. -/
def indQ (b : Bool) : ℚ := if b then 1 else 0

/-- Sum of a list of possibly-NaN values: NaN-absorbing addition, as in
Python float arithmetic. -/
def optSum (l : List (Option ℚ)) : Option ℚ :=
  l.foldr (fun a acc =>
    match a, acc with
    | some q, some s => some (q + s)
    | _, _ => none) (some 0)

/-- Embeds `model.objective` (identical in both files):
`sum(Score[s] * m.x[s, u] for s in model.students for u in model.unis)`.
A student whose `Score` is NaN makes every one of their terms — and hence
the whole sum — NaN, even where `x` is 0. -/
def codeObjective (inst : Instance) (x : Assignment) : Option ℚ :=
  optSum (inst.students.map (fun r =>
    (scoreFinal r).map (fun sc =>
      (((activeUnis inst).map (fun u =>
        sc * indQ (x r.matrikelnummer u.arbeitsnameUni))).sum))))

/-- The per-variable values returned by the solver, `model.x[s, u].value`
after `solver.solve`; `none` is Python `None`. -/
abbrev SolverValues : Type := Nat → String → Option ℚ

/-- Outcome of `solver.solve(model)` as read by the scripts:
`result.solver.status`, `result.solver.termination_condition`, and the
variable values left on the model. -/
structure SolverResult where
  status : String
  terminationCondition : String
  values : SolverValues

/-- Embeds the extraction loop (both files): for each student and each
(active) university, if `model.x[s, u].value is not None and value > 0.5`,
emit the record `(Matrikelnummer, Universität, Score)`.  The loop runs
unconditionally after the solve; it never consults the termination
condition. -/
def extractAssignments (inst : Instance) (vals : SolverValues) :
    List (Nat × String × Option ℚ) :=
  inst.students.flatMap (fun r =>
    ((activeUnis inst).filter (fun u =>
      match vals r.matrikelnummer u.arbeitsnameUni with
      | some v => decide ((1 : ℚ)/2 < v)
      | none => false)).map (fun u =>
        (r.matrikelnummer, u.arbeitsnameUni, scoreFinal r)))

/-! ## Definitions taken from the specification, for comparison -/

/-- Modelled from the spec: an "eligible pair" — the university is active
(status not `Pausiert`), program compatibility holds (the university offers
the student's program, or no program column exists for it), and the
university appears in the student's preference list.  The source never
materializes this set; it is stated here only to express claims that
quantify over eligible pairs. -/
def specEligiblePair (inst : Instance) (r : Student) (u : Uni) : Bool :=
  u.status != "Pausiert"
  && (!(inst.programmColumns.contains r.programm) || u.offersProgram r.programm)
  && r.praeferenzen.contains u.arbeitsnameUni

/-- Modelled from the spec: the preference weight of the slot (1-5) that a
university occupies in a student's preference list, via the fixed schedule
`{1: 1.0, 2: 0.9, 3: 0.8, 4: 0.7, 5: 0.6}`; a pair not derived from a slot
defaults to the plain score (weight 1). -/
def specPrefWeight (r : Student) (u : String) : ℚ :=
  match r.praeferenzen.findIdx? (fun v => v == u) with
  | some i => (prefWeightsDict (i + 1)).getD 1
  | none => 1

/-- Modelled from the spec: the claimed objective — the sum over all pairs
carrying a decision variable of
`student_score * preference_weight(student, university) * decision`. -/
def specObjective (inst : Instance) (x : Assignment) : Option ℚ :=
  optSum (inst.students.map (fun r =>
    (scoreFinal r).map (fun sc =>
      (((activeUnis inst).map (fun u =>
        sc * specPrefWeight r u.arbeitsnameUni
          * indQ (x r.matrikelnummer u.arbeitsnameUni))).sum))))

/-! ## Concrete data for counterexamples and witnesses -/

/-- The spec's scenario student: grade 1.0, motivation 1, language C1, CV 1,
formalities 1, Master with 120 ECTS, no special-circumstance flags. -/
def stuA : Student :=
  { matrikelnummer := 1, note := some 1, motivation := 1,
    sprache := some "C1", lebenslauf := 1, formalien := 1,
    level := "Master", ects := 120,
    besondereChanceBehinderung := false, besondereChanceKind := false,
    programm := 7, semesterwahl := "Egal", praeferenzen := ["UniB", "UniA"] }

/-- An active university that offers only program 7. -/
def uniA : Uni :=
  { arbeitsnameUni := "UniA", status := "Aktiv", maxBachelor := 2,
    maxMaster := 2, maxBeide := 4, gleicheAufteilungWISESOSE := false,
    offersProgram := fun p => p == 7 }

/-- An active university that offers no program at all. -/
def uniKeinProgramm : Uni :=
  { arbeitsnameUni := "UniA", status := "Aktiv", maxBachelor := 2,
    maxMaster := 2, maxBeide := 4, gleicheAufteilungWISESOSE := false,
    offersProgram := fun _ => false }

/-- The scenario student with `UniB` as the only listed preference. -/
def stu1 : Student := { stuA with praeferenzen := ["UniB"] }

/-- Instance for claim C1: the single student lists only `UniB`, yet the
single loaded university is `UniA`, which moreover does not offer the
student's program. -/
def cex1 : Instance :=
  { students := [stu1], unis := [uniKeinProgramm], programmColumns := [7] }

/-- Instance for claim C2: `stuA` ranks `UniA` at preference slot 2. -/
def cex2 : Instance :=
  { students := [stuA], unis := [uniA], programmColumns := [7] }

/-- Assignment putting student 1 at `UniA`. -/
def x2 : Assignment := fun s u => s == 1 && u == "UniA"

/-- A Master student listing `UniA` first, with semester choice WiSe. -/
def stu3 : Student :=
  { matrikelnummer := 3, note := some 2, motivation := 2,
    sprache := some "B2", lebenslauf := 2, formalien := 2,
    level := "Master", ects := 120,
    besondereChanceBehinderung := false, besondereChanceKind := false,
    programm := 7, semesterwahl := "WiSe", praeferenzen := ["UniA"] }

/-- Instance for claim C3's witness: one student, one matching university. -/
def inst3 : Instance :=
  { students := [stu3], unis := [uniA], programmColumns := [7] }

/-- Assignment putting student 3 at `UniA`. -/
def x3 : Assignment := fun s u => s == 3 && u == "UniA"

/-- A Bachelor student (90 ECTS) listing `UniZ`. -/
def stu4 : Student :=
  { matrikelnummer := 4, note := some 2, motivation := 2,
    sprache := some "B2", lebenslauf := 2, formalien := 2,
    level := "Bachelor", ects := 90,
    besondereChanceBehinderung := false, besondereChanceKind := false,
    programm := 7, semesterwahl := "Egal", praeferenzen := ["UniZ"] }

/-- An active university with Bachelor capacity 0 that offers program 7. -/
def uniZ : Uni :=
  { arbeitsnameUni := "UniZ", status := "Aktiv", maxBachelor := 0,
    maxMaster := 5, maxBeide := 5, gleicheAufteilungWISESOSE := false,
    offersProgram := fun p => p == 7 }

/-- Instance for claim C4: a Bachelor-level pair at a `MaxBachelor = 0`
university. -/
def cex4 : Instance :=
  { students := [stu4], unis := [uniZ], programmColumns := [7] }

/-- Assignment putting student 4 at `UniZ`. -/
def x4 : Assignment := fun s u => s == 4 && u == "UniZ"

/-- Instance for claim C4's witness: the strict model over `inst3`'s data
with the zero-Bachelor-capacity `UniZ` also active. -/
def inst4w : Instance :=
  { students := [stu3], unis := [uniA, uniZ], programmColumns := [7] }

/-- A student with the top score 1.0 (grade 1.0, motivation 1, C2, CV 1,
formalities 1, Master). -/
def stu5 : Student :=
  { matrikelnummer := 5, note := some 1, motivation := 1,
    sprache := some "C2", lebenslauf := 1, formalien := 1,
    level := "Master", ects := 120,
    besondereChanceBehinderung := false, besondereChanceKind := false,
    programm := 7, semesterwahl := "Egal", praeferenzen := ["UniA"] }

/-- Instance for claim C5 and C8: one student, one active university. -/
def cex5 : Instance :=
  { students := [stu5], unis := [uniA], programmColumns := [7] }

/-- A solve outcome whose termination condition is `infeasible` but whose
variable values are all set to 1. -/
def infeasibleResult : SolverResult :=
  { status := "warning", terminationCondition := "infeasible",
    values := fun _ _ => some 1 }

/-- A student with a missing grade cell. -/
def stuMissingNote : Student :=
  { matrikelnummer := 7, note := none, motivation := 1,
    sprache := some "C1", lebenslauf := 1, formalien := 1,
    level := "Master", ects := 120,
    besondereChanceBehinderung := false, besondereChanceKind := false,
    programm := 7, semesterwahl := "Egal", praeferenzen := [] }

/-- An active university that requires WiSe/SoSe balance. -/
def uniW : Uni :=
  { arbeitsnameUni := "UniW", status := "Aktiv", maxBachelor := 5,
    maxMaster := 5, maxBeide := 5, gleicheAufteilungWISESOSE := true,
    offersProgram := fun p => p == 7 }

/-- Two WiSe Master students listing `UniW`. -/
def stu91 : Student :=
  { stu3 with matrikelnummer := 91, praeferenzen := ["UniW"] }

/-- Second WiSe student for claim C9. -/
def stu92 : Student :=
  { stu3 with matrikelnummer := 92, praeferenzen := ["UniW"] }

/-- Instance for claim C9: two WiSe students, one balance-flagged
university. -/
def cex9 : Instance :=
  { students := [stu91, stu92], unis := [uniW], programmColumns := [7] }

/-- Assignment putting students 91 and 92 at `UniW`. -/
def x9 : Assignment := fun s u => (s == 91 || s == 92) && u == "UniW"

/-- Instance for claim C9's witness: one WiSe student at the flagged
university. -/
def inst9w : Instance :=
  { students := [stu91], unis := [uniW], programmColumns := [7] }

/-- Assignment putting student 91 at `UniW`. -/
def x9w : Assignment := fun s u => s == 91 && u == "UniW"

/-! ## Claims about the scorer -/

/-- C6: for every student record with a present grade, the computed Score
equals 0.6 * (5.0 - grade)/4.0 + 0.2 * (3 - motivation)/2.0 + 0.1 * language
table value + 0.05 * (3 - CV)/2.0 + 0.05 * (3 - formalities)/2.0, plus 0.6
if either special-circumstance flag is set and minus 0.2 if the level is
Bachelor with fewer than 60 credits; in particular the scenario student
(grade 1.0, motivation 1, language C1, CV 1, formalities 1, no adjustments)
scores exactly 0.98. -/
theorem claim_C6 :
    (∀ (r : Student) (g : ℚ), r.note = some g →
      scoreFinal r = some (
        0.6 * ((5 - g) / 4)
        + 0.2 * ((3 - r.motivation) / 2)
        + 0.1 * (if r.sprache = some "C2" then 1
            else if r.sprache = some "C1" then 0.8
            else if r.sprache = some "B2" then 0.6
            else if r.sprache = some "B1" then 0.4
            else if r.sprache = some "A2" then 0.2
            else if r.sprache = some "A1" then 0 else 0)
        + 0.05 * ((3 - r.lebenslauf) / 2)
        + 0.05 * ((3 - r.formalien) / 2)
        + (if r.besondereChanceBehinderung = true ∨ r.besondereChanceKind = true
            then 0.6 else 0)
        + (if r.level = "Bachelor" ∧ r.ects < 60 then -0.2 else 0)))
    ∧ scoreFinal stuA = some 0.98 := by
  constructor
  · intro r g h
    simp only [scoreFinal, scoreMitBonus, calculate_score, h, Option.map_some']
    congr 1
    simp only [normalize_note, normalize_motivation, normalize_sprache,
      normalize_lebenslauf, normalize_formalien]
    split_ifs <;> ring
  · simp +decide only [scoreFinal, scoreMitBonus, calculate_score, stuA,
      normalize_note, normalize_motivation, normalize_sprache,
      normalize_lebenslauf, normalize_formalien, Option.map_some']
    norm_num

/-- C6 witness: the theorem instantiated at the scenario student. -/
theorem claim_C6_witness :
    stuA.note = some 1 ∧
    scoreFinal stuA = some (
      0.6 * ((5 - (1 : ℚ)) / 4)
      + 0.2 * ((3 - stuA.motivation) / 2)
      + 0.1 * (if stuA.sprache = some "C2" then 1
          else if stuA.sprache = some "C1" then 0.8
          else if stuA.sprache = some "B2" then 0.6
          else if stuA.sprache = some "B1" then 0.4
          else if stuA.sprache = some "A2" then 0.2
          else if stuA.sprache = some "A1" then 0 else 0)
      + 0.05 * ((3 - stuA.lebenslauf) / 2)
      + 0.05 * ((3 - stuA.formalien) / 2)
      + (if stuA.besondereChanceBehinderung = true ∨ stuA.besondereChanceKind = true
          then 0.6 else 0)
      + (if stuA.level = "Bachelor" ∧ stuA.ects < 60 then -0.2 else 0)) :=
  ⟨rfl, claim_C6.1 stuA 1 rfl⟩

/-- C7 counterexample: a student with a missing grade cell does not get the
worst-grade default 5.0 — the score is NaN (here `none`), not the score of
the same record with grade 5.0. -/
theorem claim_C7_counterexample :
    scoreFinal stuMissingNote = none
    ∧ scoreFinal stuMissingNote ≠ scoreFinal { stuMissingNote with note := some 5 } := by
  exact ⟨by decide, by decide⟩

/-- C7 amended: a missing or unrecognized language value contributes 0.0 to
the score, but a missing grade is not defaulted to 5.0 — `normalize_note`
has no fallback, so the whole score of such a row is NaN (`none`). -/
theorem claim_C7 :
    (∀ r : Student, r.note = none → scoreFinal r = none)
    ∧ normalize_sprache none = 0
    ∧ (∀ s : String, s ∉ (["C2", "C1", "B2", "B1", "A2", "A1"] : List String) →
        normalize_sprache (some s) = 0) := by
  refine ⟨?_, ?_, ?_⟩
  · intro r h
    simp [scoreFinal, scoreMitBonus, calculate_score, h]
  · simp [normalize_sprache]
  · intro s hs
    simp only [List.mem_cons, List.not_mem_nil, or_false, not_or] at hs
    obtain ⟨h1, h2, h3, h4, h5, h6⟩ := hs
    simp [normalize_sprache, h1, h2, h3, h4, h5, h6]

/-- C7 witness: the amended theorem instantiated at the missing-grade
student and at the unrecognized language string `XX`. -/
theorem claim_C7_witness :
    stuMissingNote.note = none ∧ scoreFinal stuMissingNote = none
    ∧ "XX" ∉ (["C2", "C1", "B2", "B1", "A2", "A1"] : List String)
    ∧ normalize_sprache (some "XX") = 0 :=
  ⟨rfl, claim_C7.1 stuMissingNote rfl, by decide, claim_C7.2.2 "XX" (by decide)⟩

/-- C10: for every student and every preference rank p in 1..5, the derived
column Score_Pref{p} equals the plain Score exactly, because the computation
divides by and then multiplies by the same (non-zero) preference weight. -/
theorem claim_C10 : ∀ (r : Student) (p : Nat), 1 ≤ p → p ≤ 5 →
    scorePrefColumn p r = scoreFinal r := by
  intro r p h1 h2
  have hw : ((prefWeightsDict p).getD 1 : ℚ) ≠ 0 := by
    interval_cases p <;> norm_num [prefWeightsDict]
  cases hsc : scoreFinal r with
  | none => simp [scorePrefColumn, hsc]
  | some sc => simp [scorePrefColumn, hsc, div_mul_cancel₀ sc hw]

/-- C10 witness: the theorem instantiated at the scenario student and
preference rank 2. -/
theorem claim_C10_witness :
    1 ≤ 2 ∧ 2 ≤ 5 ∧ scorePrefColumn 2 stuA = scoreFinal stuA :=
  ⟨by decide, by decide, claim_C10 stuA 2 (by decide) (by decide)⟩

/-! ## Claims about the model -/

/-- C1 counterexample: the pair (student 1, UniA) carries a decision
variable although UniA neither offers the student's program nor appears in
the student's preference list — so variables are not restricted to eligible
pairs. -/
theorem claim_C1_counterexample :
    (1, "UniA") ∈ varDomain cex1
    ∧ stu1 ∈ cex1.students
    ∧ uniKeinProgramm ∈ cex1.unis
    ∧ specEligiblePair cex1 stu1 uniKeinProgramm = false
    ∧ "UniA" ∉ stu1.praeferenzen
    ∧ uniKeinProgramm.offersProgram stu1.programm = false :=
  ⟨by decide, by decide, by simp [cex1], by decide, by decide, by decide⟩

/-- C1 amended: decision variables exist for exactly the pairs of a loaded
student id with an active (non-paused) university id; the active-status part
of the claim holds, but neither program compatibility nor preference-list
membership restricts the variable domain (compatibility is enforced by the
separate `programm_match` constraint in the strict variant, and preference
lists are never consulted at all). -/
theorem claim_C1 : ∀ (inst : Instance) (s : Nat) (u : String),
    ((s, u) ∈ varDomain inst ↔ s ∈ studentIds inst ∧ u ∈ uniIds inst)
    ∧ (u ∈ uniIds inst →
        ∃ uu ∈ inst.unis, uu.arbeitsnameUni = u ∧ uu.status ≠ "Pausiert") := by
  intro inst s u
  constructor
  · constructor
    · intro h
      rw [varDomain, List.mem_flatMap] at h
      obtain ⟨a, ha, hmem⟩ := h
      rw [List.mem_map] at hmem
      obtain ⟨b, hb, heq⟩ := hmem
      injection heq with h1 h2
      subst h1
      subst h2
      exact ⟨ha, hb⟩
    · rintro ⟨hs, hu⟩
      rw [varDomain, List.mem_flatMap]
      exact ⟨s, hs, List.mem_map.mpr ⟨u, hu, rfl⟩⟩
  · intro hu
    rw [uniIds, List.mem_map] at hu
    obtain ⟨uu, huu, heq⟩ := hu
    rw [activeUnis, List.mem_filter] at huu
    exact ⟨uu, huu.1, heq, bne_iff_ne.mp huu.2⟩

/-- C1 witness: the amended theorem instantiated at `cex1`. -/
theorem claim_C1_witness :
    "UniA" ∈ uniIds cex1
    ∧ ∃ uu ∈ cex1.unis, uu.arbeitsnameUni = "UniA" ∧ uu.status ≠ "Pausiert" :=
  ⟨by decide, (claim_C1 cex1 1 "UniA").2 (by decide)⟩

/-- Sum of `score * decision` over a list of universities equals the score
times the number of assigned universities. -/
theorem sum_mul_indQ (sc : ℚ) (f : Uni → Bool) (l : List Uni) :
    (l.map (fun u => sc * indQ (f u))).sum = sc * ((l.filter f).length : ℚ) := by
  induction l with
  | nil => simp
  | cons u t ih =>
    rw [List.map_cons, List.sum_cons, ih, List.filter_cons]
    cases hf : f u
    · simp [hf, indQ]
    · simp [hf, indQ]
      ring

/-- C2 counterexample: on an instance where the student ranks the assigned
university at preference slot 2, the claimed preference-weighted objective
differs from the objective the code builds. -/
theorem claim_C2_counterexample :
    specObjective cex2 x2 ≠ codeObjective cex2 x2 := by
  simp +decide [specObjective, codeObjective, cex2, x2, stuA, uniA, activeUnis,
    optSum, scoreFinal, scoreMitBonus, calculate_score, normalize_note,
    normalize_motivation, normalize_sprache, normalize_lebenslauf,
    normalize_formalien, specPrefWeight, prefWeightsDict, indQ, List.findIdx?]
  norm_num

/-- C2 amended: the objective built by the code is the sum, over all pairs
carrying a decision variable, of the student's Score times the decision
variable, with no preference weighting — equivalently, each student
contributes Score times the number of universities they are assigned to. -/
theorem claim_C2 : ∀ (inst : Instance) (x : Assignment),
    codeObjective inst x =
      optSum (inst.students.map (fun r =>
        (scoreFinal r).map (fun sc => sc * (assignedCount inst x r : ℚ)))) := by
  intro inst x
  have hf : (fun r : Student => (scoreFinal r).map (fun sc =>
        ((activeUnis inst).map (fun u =>
          sc * indQ (x r.matrikelnummer u.arbeitsnameUni))).sum))
      = (fun r : Student =>
        (scoreFinal r).map (fun sc => sc * (assignedCount inst x r : ℚ))) := by
    funext r
    cases hsc : scoreFinal r with
    | none => simp
    | some sc => simp [hsc, assignedCount, sum_mul_indQ]
  rw [codeObjective, hf]

/-- C3: every feasible solution of the best-effort variant assigns each
student at most one university, and every feasible solution of the strict
variant assigns each student exactly one university (in particular whenever
the student has at least one eligible pair). -/
theorem claim_C3 : ∀ (inst : Instance) (x : Assignment) (r : Student),
    r ∈ inst.students →
    (seminararbeitFeasible inst x = true → assignedCount inst x r ≤ 1)
    ∧ (pythonCodeFeasible inst x = true →
        (∃ u ∈ inst.unis, specEligiblePair inst r u = true) →
        assignedCount inst x r = 1) := by
  intro inst x r hr
  constructor
  · intro hf
    rw [seminararbeitFeasible, one_uni_per_student_bestEffort,
      List.all_eq_true] at hf
    simpa using hf r hr
  · intro hf _
    rw [pythonCodeFeasible] at hf
    simp only [Bool.and_eq_true] at hf
    have h1 := hf.1.1.1.1.1
    rw [one_uni_per_student_strict, List.all_eq_true] at h1
    simpa using h1 r hr

/-- C3 witness: the theorem instantiated on a one-student one-university
instance that is feasible for both variants. -/
theorem claim_C3_witness :
    stu3 ∈ inst3.students ∧ seminararbeitFeasible inst3 x3 = true
    ∧ pythonCodeFeasible inst3 x3 = true
    ∧ assignedCount inst3 x3 stu3 ≤ 1 ∧ assignedCount inst3 x3 stu3 = 1 :=
  ⟨by decide, by decide, by decide,
   (claim_C3 inst3 x3 stu3 (by decide)).1 (by decide),
   (claim_C3 inst3 x3 stu3 (by decide)).2 (by decide)
     ⟨uniA, by simp [inst3], by decide⟩⟩

/-- C4 counterexample: a feasible solution of the best-effort variant
(`seminararbeit.py`, whose capacity rules are commented out) assigns a
Bachelor student to an active university with `MaxBachelor = 0`. -/
theorem claim_C4_counterexample :
    seminararbeitFeasible cex4 x4 = true
    ∧ uniZ ∈ cex4.unis ∧ uniZ.status ≠ "Pausiert"
    ∧ stu4 ∈ cex4.students ∧ stu4.level = "Bachelor"
    ∧ uniZ.maxBachelor = 0
    ∧ x4 stu4.matrikelnummer uniZ.arbeitsnameUni = true
    ∧ ¬ (bachelorCount cex4 x4 uniZ ≤ uniZ.maxBachelor) :=
  ⟨by decide, by simp [cex4], by decide, by decide, by decide, by decide,
   by decide, by decide⟩

/-- C4 amended: in every feasible solution of the strict variant
(`pythonCode.py`), each active university's Bachelor count is at most
MaxBachelor, its Master count at most MaxMaster and its total count at most
MaxBeide, and MaxBachelor = 0 forces every Bachelor pair's variable to 0;
the best-effort variant (`seminararbeit.py`) has no capacity constraints at
all. -/
theorem claim_C4 : ∀ (inst : Instance) (x : Assignment),
    pythonCodeFeasible inst x = true →
    ∀ u ∈ inst.unis, u.status ≠ "Pausiert" →
      bachelorCount inst x u ≤ u.maxBachelor
      ∧ masterCount inst x u ≤ u.maxMaster
      ∧ totalCount inst x u ≤ u.maxBeide
      ∧ (u.maxBachelor = 0 → ∀ r ∈ inst.students, r.level = "Bachelor" →
          x r.matrikelnummer u.arbeitsnameUni = false) := by
  intro inst x hf u hu hs
  have humem : u ∈ activeUnis inst :=
    List.mem_filter.mpr ⟨hu, bne_iff_ne.mpr hs⟩
  rw [pythonCodeFeasible] at hf
  simp only [Bool.and_eq_true] at hf
  obtain ⟨⟨⟨⟨⟨h1, h2⟩, h3⟩, h4⟩, h5⟩, h6⟩ := hf
  rw [bachelor_capacity, List.all_eq_true] at h2
  rw [master_capacity, List.all_eq_true] at h3
  rw [both_capacity, List.all_eq_true] at h4
  have hb : bachelorCount inst x u ≤ u.maxBachelor := by simpa using h2 u humem
  refine ⟨hb, by simpa using h3 u humem, by simpa using h4 u humem, ?_⟩
  intro hz r hrs hrl
  rw [hz] at hb
  have hzero : inst.students.filter (fun r =>
      r.level == "Bachelor" && x r.matrikelnummer u.arbeitsnameUni) = [] := by
    rw [← List.length_eq_zero, ← bachelorCount]
    exact Nat.le_zero.mp hb
  by_contra hx
  rw [Bool.not_eq_false] at hx
  have hmem : r ∈ inst.students.filter (fun r =>
      r.level == "Bachelor" && x r.matrikelnummer u.arbeitsnameUni) :=
    List.mem_filter.mpr ⟨hrs, by simp [hrl, hx]⟩
  rw [hzero] at hmem
  exact absurd hmem (List.not_mem_nil r)

/-- C4 witness: the amended theorem instantiated on a strict-feasible
solution over an instance containing the MaxBachelor = 0 university. -/
theorem claim_C4_witness :
    pythonCodeFeasible inst4w x3 = true ∧ uniZ ∈ inst4w.unis
    ∧ uniZ.status ≠ "Pausiert" ∧ uniZ.maxBachelor = 0
    ∧ (bachelorCount inst4w x3 uniZ ≤ uniZ.maxBachelor
       ∧ masterCount inst4w x3 uniZ ≤ uniZ.maxMaster
       ∧ totalCount inst4w x3 uniZ ≤ uniZ.maxBeide
       ∧ (uniZ.maxBachelor = 0 → ∀ r ∈ inst4w.students, r.level = "Bachelor" →
           x3 r.matrikelnummer uniZ.arbeitsnameUni = false)) :=
  ⟨by decide, by simp [inst4w], by decide, by decide,
   claim_C4 inst4w x3 (by decide) uniZ (by simp [inst4w]) (by decide)⟩

/-- C9 counterexample: a feasible solution of the best-effort variant
(`seminararbeit.py`, whose balance rule is commented out) assigns two WiSe
students and no SoSe student to a balance-flagged university. -/
theorem claim_C9_counterexample :
    seminararbeitFeasible cex9 x9 = true
    ∧ uniW ∈ cex9.unis ∧ uniW.status ≠ "Pausiert"
    ∧ uniW.gleicheAufteilungWISESOSE = true
    ∧ ¬ ((wiseCount cex9 x9 uniW : ℤ) - soseCount cex9 x9 uniW ≤ 1) :=
  ⟨by decide, by simp [cex9], by decide, by decide, by decide⟩

/-- C9 amended: in every feasible solution of the strict variant
(`pythonCode.py`), each active balance-flagged university has
|assigned WiSe students − assigned SoSe students| at most 1, students of
other semester choices (such as `Egal`) being counted on neither side; the
best-effort variant omits the balance constraint. -/
theorem claim_C9 : ∀ (inst : Instance) (x : Assignment),
    pythonCodeFeasible inst x = true →
    ∀ u ∈ inst.unis, u.status ≠ "Pausiert" →
      u.gleicheAufteilungWISESOSE = true →
      -1 ≤ (wiseCount inst x u : ℤ) - soseCount inst x u
      ∧ (wiseCount inst x u : ℤ) - soseCount inst x u ≤ 1 := by
  intro inst x hf u hu hs hflag
  have humem : u ∈ activeUnis inst :=
    List.mem_filter.mpr ⟨hu, bne_iff_ne.mpr hs⟩
  rw [pythonCodeFeasible] at hf
  simp only [Bool.and_eq_true] at hf
  have h5 := hf.1.2
  rw [gleiche_aufteilung, List.all_eq_true] at h5
  have h := h5 u humem
  rw [hflag] at h
  simpa using h

/-- C9 witness: the amended theorem instantiated on a strict-feasible
solution placing one WiSe student at the flagged university. -/
theorem claim_C9_witness :
    pythonCodeFeasible inst9w x9w = true ∧ uniW ∈ inst9w.unis
    ∧ uniW.status ≠ "Pausiert" ∧ uniW.gleicheAufteilungWISESOSE = true
    ∧ (-1 ≤ (wiseCount inst9w x9w uniW : ℤ) - soseCount inst9w x9w uniW
       ∧ (wiseCount inst9w x9w uniW : ℤ) - soseCount inst9w x9w uniW ≤ 1) :=
  ⟨by decide, by simp [inst9w], by decide, by decide,
   claim_C9 inst9w x9w (by decide) uniW (by simp [inst9w]) (by decide) (by decide)⟩

/-- C8: every record produced by the extraction loop names a university from
the filtered (active) university list, and that university's status is not
`Pausiert` — paused universities admit zero assignments in either variant. -/
theorem claim_C8 : ∀ (inst : Instance) (vals : SolverValues)
    (rec : Nat × String × Option ℚ), rec ∈ extractAssignments inst vals →
    rec.2.1 ∈ uniIds inst
    ∧ ∃ u ∈ inst.unis, u.arbeitsnameUni = rec.2.1 ∧ u.status ≠ "Pausiert" := by
  intro inst vals rec hrec
  rw [extractAssignments, List.mem_flatMap] at hrec
  obtain ⟨r, hr, hmem⟩ := hrec
  rw [List.mem_map] at hmem
  obtain ⟨u, hu, heq⟩ := hmem
  have huA : u ∈ activeUnis inst := (List.mem_filter.mp hu).1
  have hfil := List.mem_filter.mp
    (show u ∈ inst.unis.filter (fun uu => uu.status != "Pausiert") from huA)
  subst heq
  exact ⟨List.mem_map.mpr ⟨u, huA, rfl⟩,
    ⟨u, hfil.1, rfl, bne_iff_ne.mp hfil.2⟩⟩

/-- C8 witness: the theorem instantiated at a concrete extraction. -/
theorem claim_C8_witness :
    ((5, "UniA", scoreFinal stu5) ∈ extractAssignments cex5 (fun _ _ => some 1))
    ∧ ("UniA" ∈ uniIds cex5
       ∧ ∃ u ∈ cex5.unis, u.arbeitsnameUni = "UniA" ∧ u.status ≠ "Pausiert") := by
  have hmem : (5, "UniA", scoreFinal stu5)
      ∈ extractAssignments cex5 (fun _ _ => some 1) := by
    simp [extractAssignments, cex5, stu5, uniA, activeUnis]
    norm_num
  exact ⟨hmem, claim_C8 cex5 (fun _ _ => some 1) (5, "UniA", scoreFinal stu5) hmem⟩

/-- C5: the extraction loop runs unconditionally after the solve — on a
solver outcome whose termination condition is `infeasible` (hence
non-optimal) but which leaves variable values set, the code still emits the
assignment records instead of surfacing a distinct failure result. -/
theorem claim_C5 :
    infeasibleResult.terminationCondition ≠ "optimal"
    ∧ infeasibleResult.terminationCondition = "infeasible"
    ∧ extractAssignments cex5 infeasibleResult.values = [(5, "UniA", some 1)]
    ∧ extractAssignments cex5 infeasibleResult.values ≠ [] := by
  have h3 : extractAssignments cex5 infeasibleResult.values
      = [(5, "UniA", some 1)] := by
    simp +decide [extractAssignments, cex5, stu5, uniA, activeUnis,
      infeasibleResult, scoreFinal, scoreMitBonus, calculate_score,
      normalize_note, normalize_motivation, normalize_sprache,
      normalize_lebenslauf, normalize_formalien]
    norm_num
  exact ⟨by decide, rfl, h3, by rw [h3]; exact List.cons_ne_nil _ _⟩

end Seminar
